import Mathlib

/-!
Verification development for the moss-growth prediction service
(`predict.py` and `main.py`).

Floats are modelled as rationals (`ℚ`).  Python's `round(x, n)` is
round-half-to-even on the `n`-th decimal.  The regressor and the scaler are
opaque deterministic artifacts: the regressor is a function from a scaled row
to a scalar, the scaler a function from a row of values to a row of values
(scikit-learn applies both positionally to the row values).  The filesystem
visible to the loader is a record of the three optional artifact files.
-/

set_option maxRecDepth 4000

/-- Round-half-to-even of a rational to the nearest integer, as Python's
built-in `round` does on ties. -/
def rhe (q : ℚ) : ℤ :=
  let f := ⌊q⌋
  if q - f < 1/2 then f
  else if 1/2 < q - f then f + 1
  else if f % 2 = 0 then f else f + 1

/-- Python's `round(q, n)`: round to `n` decimal places, ties to even. -/
def pyRound (n : ℕ) (q : ℚ) : ℚ :=
  (rhe (q * 10 ^ n) : ℚ) / 10 ^ n

/-- The four validated environmental readings
(`temperature, humidity, tds, ph`). -/
structure EnvironmentalReading where
  temperature : ℚ
  humidity : ℚ
  tds : ℚ
  ph : ℚ
  deriving DecidableEq, Repr

/-- Contents of `model_info.json`: model name, held-out R² score and the
ordered list of trained feature names. -/
structure ModelInfo where
  model_name : String
  test_r2 : ℚ
  features : List String
  deriving DecidableEq, Repr

/-- The loaded artifact triple: fitted regressor (`best_model.pkl`), fitted
scaler (`scaler.pkl`) and metadata (`model_info.json`).  Regressor and scaler
are opaque deterministic functions operating positionally on row values. -/
structure Bundle where
  model : List ℚ → ℚ
  scaler : List ℚ → List ℚ
  info : ModelInfo

/-- The working directory as the loader sees it: each artifact file is either
present (with its deserialized content) or absent. -/
structure FS where
  best_model : Option (List ℚ → ℚ)
  scaler_pkl : Option (List ℚ → List ℚ)
  model_info : Option ModelInfo

/-- The filesystem that holds exactly the three artifacts of a bundle. -/
def fsOf (b : Bundle) : FS :=
  ⟨some b.model, some b.scaler, some b.info⟩

/-- `load_model` from `predict.py`: loads `best_model.pkl`, then
`scaler.pkl`, then `model_info.json`; the first `FileNotFoundError` is caught
and the function reports that one file name, returning the `None` triple
(modelled as `.error` carrying the printed file name). -/
def load_model (fs : FS) : Except String Bundle :=
  match fs.best_model with
  | none => .error "best_model.pkl"
  | some m =>
    match fs.scaler_pkl with
    | none => .error "scaler.pkl"
    | some s =>
      match fs.model_info with
      | none => .error "model_info.json"
      | some i => .ok ⟨m, s, i⟩

/-- `check_model_files` from `main.py`: the list of missing artifact files,
in the fixed order `best_model.pkl`, `scaler.pkl`, `model_info.json`. -/
def missingFiles (fs : FS) : List String :=
  (if fs.best_model.isNone then ["best_model.pkl"] else []) ++
  (if fs.scaler_pkl.isNone then ["scaler.pkl"] else []) ++
  (if fs.model_info.isNone then ["model_info.json"] else [])

/-- A pandas `DataFrame` holding one row: column labels plus row values. -/
structure DataFrame where
  columns : List String
  row : List ℚ
  deriving DecidableEq, Repr

/-- A Python exception escaping the pipeline uncaught by it. -/
inductive PyError where
  | valueError (msg : String)
  deriving DecidableEq, Repr

/-- `pd.DataFrame([input_values], columns=feature_names)`: the values keep
the order they were listed in; the names are attached as column labels
positionally.  pandas raises `ValueError` when the number of labels differs
from the number of values. -/
def frame_input (input_values : List ℚ) (feature_names : List String) :
    Except PyError DataFrame :=
  if feature_names.length = input_values.length then
    .ok ⟨feature_names, input_values⟩
  else
    .error (.valueError "Shape of passed values does not match implied indices")

/-- The `result` dict assembled by `predict_growth_days`. -/
structure ResultDict where
  input_conditions : EnvironmentalReading
  predicted_growth_days : ℚ
  model_used : String
  model_accuracy_r2 : ℚ
  deriving DecidableEq, Repr

/-- Outcome of `predict_growth_days`: the `(None, None)` return after a load
failure (carrying the file name the loader printed), an uncaught exception,
or the `(prediction, result)` pair. -/
inductive PredictOutcome where
  | noneResult (missing : String)
  | raised (e : PyError)
  | ok (prediction : ℚ) (result : ResultDict)
  deriving DecidableEq, Repr

/-- `predict_growth_days` from `predict.py`: loads the artifacts, frames
`[temperature, humidity, tds, ph]` into a one-row DataFrame labelled with the
metadata feature names, applies the scaler and the regressor to the row, and
assembles the result dict. -/
def predict_growth_days (fs : FS) (temperature humidity tds ph : ℚ) :
    PredictOutcome :=
  match load_model fs with
  | .error missing => .noneResult missing
  | .ok b =>
    let feature_names := b.info.features
    let input_values := [temperature, humidity, tds, ph]
    match frame_input input_values feature_names with
    | .error e => .raised e
    | .ok input_data =>
      let input_scaled := b.scaler input_data.row
      let prediction := b.model input_scaled
      .ok prediction
        { input_conditions := ⟨temperature, humidity, tds, ph⟩
          predicted_growth_days := pyRound 2 prediction
          model_used := b.info.model_name
          model_accuracy_r2 := pyRound 4 b.info.test_r2 }

/-- `get_interpretation` from `predict.py` (the name shortened to the spec's
`interpret`): maps predicted days to a growth-speed category. -/
def interpret (predicted_days : ℚ) : String :=
  if predicted_days < 15 then "Very fast growth - Excellent conditions"
  else if predicted_days < 25 then "Fast growth - Good conditions"
  else if predicted_days < 35 then "Moderate growth - Acceptable conditions"
  else "Slow growth - Suboptimal conditions"

/-- `get_interpretation` from `main.py` (the request-handling layer's own
copy of the same logic). -/
def interpretApi (predicted_days : ℚ) : String :=
  if predicted_days < 15 then "Very fast growth - Excellent conditions"
  else if predicted_days < 25 then "Fast growth - Good conditions"
  else if predicted_days < 35 then "Moderate growth - Acceptable conditions"
  else "Slow growth - Suboptimal conditions"

/-- The `temperature` validator of `PredictionInput`: reject outside
`[18, 35]`, otherwise round to 2 decimals. -/
def validate_temperature (v : ℚ) : Except String ℚ :=
  if v < 18 ∨ v > 35 then .error "Temperature must be between 18.0°C and 35.0°C"
  else .ok (pyRound 2 v)

/-- The `humidity` validator of `PredictionInput`: reject outside `[50, 80]`,
otherwise round to 2 decimals. -/
def validate_humidity (v : ℚ) : Except String ℚ :=
  if v < 50 ∨ v > 80 then .error "Humidity must be between 50.0% and 80.0%"
  else .ok (pyRound 2 v)

/-- The `tds` validator of `PredictionInput`: reject outside `[400, 800]`,
otherwise round to 2 decimals. -/
def validate_tds (v : ℚ) : Except String ℚ :=
  if v < 400 ∨ v > 800 then .error "TDS must be between 400.0 ppm and 800.0 ppm"
  else .ok (pyRound 2 v)

/-- The `ph` validator of `PredictionInput`: reject outside `[6, 7]`,
otherwise round to 2 decimals. -/
def validate_ph (v : ℚ) : Except String ℚ :=
  if v < 6 ∨ v > 7 then .error "pH must be between 6.0 and 7.0"
  else .ok (pyRound 2 v)

/-- The field name contributed to a pydantic error report by one field
validator's outcome. -/
def errField (name : String) : Except String ℚ → List String
  | .error _ => [name]
  | .ok _ => []

/-- Pydantic validation of `PredictionInput`: every field validator runs, the
names of all failing fields are collected; on full success the (rounded)
values form the validated reading. -/
def validateInput (t h d p : ℚ) : Except (List String) EnvironmentalReading :=
  match validate_temperature t, validate_humidity h, validate_tds d, validate_ph p with
  | .ok t', .ok h', .ok d', .ok p' => .ok ⟨t', h', d', p'⟩
  | rt, rh, rd, rp =>
    .error (errField "temperature" rt ++ errField "humidity" rh ++
            errField "tds" rd ++ errField "ph" rp)

/-- The HTTP success body of `/predict` (its last field is named
`interpretation` in the source). -/
structure PredictionOutput where
  predicted_growth_days : ℚ
  input_conditions : EnvironmentalReading
  model_used : String
  model_accuracy_r2 : ℚ
  interp : String
  deriving DecidableEq, Repr

/-- An HTTP error raised by the `/predict` endpoint. -/
inductive ApiError where
  | validation (fields : List String)
  | http422 (detail : String)
  | http500 (detail : String)
  deriving DecidableEq, Repr

/-- The body of the `/predict` endpoint after pydantic validation: call
`predict_growth_days` with the validated field values, turn a `None` result
into a 500, an escaped `ValueError` into a 422, and otherwise assemble the
`PredictionOutput` (prediction rounded to 2 decimals, result dict fields
copied, the category computed by `main.py`'s `get_interpretation` from the
unrounded prediction). -/
def predictEndpoint (fs : FS) (temperature humidity tds ph : ℚ) :
    Except ApiError PredictionOutput :=
  match predict_growth_days fs temperature humidity tds ph with
  | .noneResult _ =>
    .error (.http500 "Failed to load model or make prediction. Please check model files.")
  | .raised (.valueError msg) =>
    .error (.http422 ("Validation error: " ++ msg))
  | .ok prediction result =>
    .ok { predicted_growth_days := pyRound 2 prediction
          input_conditions := result.input_conditions
          model_used := result.model_used
          model_accuracy_r2 := result.model_accuracy_r2
          interp := interpretApi prediction }

/-- The full request path: pydantic validation (422 listing the failing
fields) followed by the endpoint body. -/
def handlePredict (fs : FS) (t h d p : ℚ) : Except ApiError PredictionOutput :=
  match validateInput t h d p with
  | .error fields => .error (.validation fields)
  | .ok reading =>
    predictEndpoint fs reading.temperature reading.humidity reading.tds reading.ph

/-- The line `load_model` prints when a file is missing. -/
def loadPrintLines (fs : FS) : List String :=
  match load_model fs with
  | .error missing => ["Error: Required file not found - " ++ missing]
  | .ok _ => []

/-- Process state around one call: the working directory plus what has been
printed to stdout so far. -/
structure World where
  fs : FS
  out : List String

/-- `predict_growth_days` with its effects made explicit: it reads the
artifact files and may print a missing-file line; it writes nothing to the
filesystem. -/
def predictW (w : World) (t h d p : ℚ) : PredictOutcome × World :=
  (predict_growth_days w.fs t h d p, ⟨w.fs, w.out ++ loadPrintLines w.fs⟩)

/-- The scalar prediction carried by a successful outcome, if any. -/
def predictionOf : PredictOutcome → Option ℚ
  | .ok q _ => some q
  | _ => none

/-- A bundle whose regressor reports the first entry of the (identity-scaled)
row, with the feature names in the natural field order. -/
def c1bundleA : Bundle :=
  ⟨fun r => r.headI, fun r => r,
    ⟨"Random Forest", 0.624, ["temperature", "humidity", "tds", "ph"]⟩⟩

/-- The same regressor and scaler as `c1bundleA`, with the first two feature
names swapped in the metadata. -/
def c1bundleB : Bundle :=
  ⟨fun r => r.headI, fun r => r,
    ⟨"Random Forest", 0.624, ["humidity", "temperature", "tds", "ph"]⟩⟩

/-- A bundle whose regressor always returns 14.996 days. -/
def c5bundle : Bundle :=
  ⟨fun _ => 14996/1000, fun r => r,
    ⟨"Random Forest", 0.624, ["temperature", "humidity", "tds", "ph"]⟩⟩

/-- A bundle whose metadata names four features that match no reading field. -/
def c8bundle : Bundle :=
  ⟨fun _ => 20, fun r => r, ⟨"Random Forest", 0.624, ["a", "b", "c", "d"]⟩⟩

/-- A bundle whose metadata lists only three feature names. -/
def c8bundle3 : Bundle :=
  ⟨fun _ => 20, fun r => r, ⟨"Random Forest", 0.624, ["a", "b", "c"]⟩⟩

/-- A well-formed bundle used to exercise the successful request path. -/
def okBundle : Bundle :=
  ⟨fun _ => 20, fun r => r,
    ⟨"Random Forest", 0.624, ["temperature", "humidity", "tds", "ph"]⟩⟩

/-- The response produced for the reading (22.556, 70, 600, 6.4) under
`okBundle`. -/
def c4out : PredictionOutput :=
  ⟨20, ⟨2256/100, 70, 600, 32/5⟩, "Random Forest", 0.624,
    "Fast growth - Good conditions"⟩

/-- The response produced for the reading (22.5, 70, 600, 6.4) under
`c5bundle`: the regressor reports 14.996 days, echoed rounded to 15. -/
def c5run_out : PredictionOutput :=
  ⟨15, ⟨45/2, 70, 600, 32/5⟩, "Random Forest", 0.624,
    "Very fast growth - Excellent conditions"⟩

/-- A working directory missing both `best_model.pkl` and `scaler.pkl`. -/
def c7fs : FS :=
  ⟨none, none, some ⟨"Random Forest", 0.624, ["temperature", "humidity", "tds", "ph"]⟩⟩

/-- A working directory missing only `model_info.json`. -/
def c7fs2 : FS := ⟨some (fun _ => 20), some (fun r => r), none⟩

/- ======================================================================
   Theorems
   ====================================================================== -/

lemma floor_eq_of (q : ℚ) (f : ℤ) (h1 : (f : ℚ) ≤ q) (h2 : q < f + 1) :
    ⌊q⌋ = f :=
  Int.floor_eq_iff.mpr ⟨h1, h2⟩

lemma pyRound_down (n : ℕ) (q : ℚ) (f : ℤ) (h1 : (f : ℚ) ≤ q * 10 ^ n)
    (h2 : q * 10 ^ n < f + 1) (h3 : q * 10 ^ n - f < 1/2) :
    pyRound n q = (f : ℚ) / 10 ^ n := by
  unfold pyRound rhe
  rw [floor_eq_of _ f h1 h2]
  simp only [h3, if_pos]

lemma pyRound_up (n : ℕ) (q : ℚ) (f : ℤ) (h1 : (f : ℚ) ≤ q * 10 ^ n)
    (h2 : q * 10 ^ n < f + 1) (h3 : 1/2 < q * 10 ^ n - f) :
    pyRound n q = ((f + 1 : ℤ) : ℚ) / 10 ^ n := by
  unfold pyRound rhe
  rw [floor_eq_of _ f h1 h2]
  have h4 : ¬ (q * 10 ^ n - f < 1/2) := by linarith
  simp only [h4, if_neg, h3, if_pos, if_false]

lemma pyRound_int (n : ℕ) (q : ℚ) (z : ℤ) (hz : q * 10 ^ n = (z : ℚ)) :
    pyRound n q = q := by
  have h0 : (0 : ℚ) < 10 ^ n := by positivity
  rw [pyRound_down n q z (by rw [hz]) (by rw [hz]; norm_num) (by rw [hz]; norm_num)]
  field_simp at hz ⊢
  linarith

lemma interpret_cases (d : ℚ) :
    (interpret d = "Very fast growth - Excellent conditions" ↔ d < 15) ∧
    (interpret d = "Fast growth - Good conditions" ↔ 15 ≤ d ∧ d < 25) ∧
    (interpret d = "Moderate growth - Acceptable conditions" ↔ 25 ≤ d ∧ d < 35) ∧
    (interpret d = "Slow growth - Suboptimal conditions" ↔ 35 ≤ d) := by
  unfold interpret
  split_ifs with h1 h2 h3
  · exact ⟨⟨fun _ => h1, fun _ => rfl⟩,
      ⟨fun hs => absurd hs (by decide), fun hd => absurd hd.1 (by linarith)⟩,
      ⟨fun hs => absurd hs (by decide), fun hd => absurd hd.1 (by linarith)⟩,
      ⟨fun hs => absurd hs (by decide), fun hd => absurd hd (by linarith)⟩⟩
  · exact ⟨⟨fun hs => absurd hs (by decide), fun hd => absurd hd h1⟩,
      ⟨fun _ => ⟨not_lt.mp h1, h2⟩, fun _ => rfl⟩,
      ⟨fun hs => absurd hs (by decide), fun hd => absurd hd.1 (not_le.mpr h2)⟩,
      ⟨fun hs => absurd hs (by decide), fun hd => absurd hd (by linarith)⟩⟩
  · exact ⟨⟨fun hs => absurd hs (by decide), fun hd => absurd hd h1⟩,
      ⟨fun hs => absurd hs (by decide), fun hd => absurd hd.2 h2⟩,
      ⟨fun _ => ⟨not_lt.mp h2, h3⟩, fun _ => rfl⟩,
      ⟨fun hs => absurd hs (by decide), fun hd => absurd hd (by linarith)⟩⟩
  · exact ⟨⟨fun hs => absurd hs (by decide), fun hd => absurd hd h1⟩,
      ⟨fun hs => absurd hs (by decide), fun hd => absurd hd.2 h2⟩,
      ⟨fun hs => absurd hs (by decide), fun hd => absurd hd.2 h3⟩,
      ⟨fun _ => not_lt.mp h3, fun _ => rfl⟩⟩

lemma validateInput_ok (t h d p : ℚ) (r : EnvironmentalReading)
    (hr : validateInput t h d p = .ok r) :
    r = ⟨pyRound 2 t, pyRound 2 h, pyRound 2 d, pyRound 2 p⟩ := by
  unfold validateInput validate_temperature validate_humidity validate_tds validate_ph at hr
  split_ifs at hr
  all_goals simp_all

lemma predict_ok_iff (b : Bundle) (t h d p : ℚ) (hl : b.info.features.length = 4) :
    predict_growth_days (fsOf b) t h d p =
      .ok (b.model (b.scaler [t, h, d, p]))
        ⟨⟨t, h, d, p⟩, pyRound 2 (b.model (b.scaler [t, h, d, p])),
          b.info.model_name, pyRound 4 b.info.test_r2⟩ := by
  unfold predict_growth_days load_model fsOf frame_input
  simp [hl]

lemma predict_ok_conditions (fs : FS) (t h d p q : ℚ) (res : ResultDict)
    (hp : predict_growth_days fs t h d p = .ok q res) :
    res.input_conditions = ⟨t, h, d, p⟩ ∧
    res.predicted_growth_days = pyRound 2 q := by
  unfold predict_growth_days at hp
  split at hp
  · exact absurd hp (by simp)
  · dsimp only at hp
    split at hp
    · exact absurd hp (by simp)
    · simp only [PredictOutcome.ok.injEq] at hp
      obtain ⟨hq, hres⟩ := hp
      subst hq
      rw [← hres]
      exact ⟨rfl, rfl⟩

lemma predictEndpoint_ok (fs : FS) (t h d p : ℚ) (out : PredictionOutput)
    (ho : predictEndpoint fs t h d p = .ok out) :
    ∃ q res, predict_growth_days fs t h d p = .ok q res ∧
      out = ⟨pyRound 2 q, res.input_conditions, res.model_used,
             res.model_accuracy_r2, interpretApi q⟩ := by
  unfold predictEndpoint at ho
  cases hp : predict_growth_days fs t h d p with
  | noneResult m => rw [hp] at ho; simp at ho
  | raised e => rw [hp] at ho; cases e; simp at ho
  | ok q res =>
    rw [hp] at ho
    simp only [Except.ok.injEq] at ho
    exact ⟨q, res, rfl, ho.symm⟩

lemma predict_ok_fsOf (b : Bundle) (t h d p q : ℚ) (res : ResultDict)
    (hp : predict_growth_days (fsOf b) t h d p = .ok q res) :
    q = b.model (b.scaler [t, h, d, p]) ∧
    res = ⟨⟨t, h, d, p⟩, pyRound 2 q, b.info.model_name, pyRound 4 b.info.test_r2⟩ := by
  unfold predict_growth_days load_model fsOf frame_input at hp
  dsimp only at hp
  split_ifs at hp with hlen
  all_goals
    dsimp only at hp
    simp only [PredictOutcome.ok.injEq] at hp
    obtain ⟨hq, hres⟩ := hp
    subst hq
    exact ⟨rfl, hres.symm⟩

/-- C1 (counterexample): swapping the first two entries of the metadata
feature list while keeping the same reading does NOT change the predicted
value.  `c1bundleA` and `c1bundleB` share the regressor (first row entry) and
scaler (identity) and differ only by that swap, yet both predict 20 (the
temperature) for the reading (20, 60, 500, 6.5). -/
theorem c1_counterexample :
    c1bundleA.info.features = ["temperature", "humidity", "tds", "ph"] ∧
    c1bundleB.info.features = ["humidity", "temperature", "tds", "ph"] ∧
    predictionOf (predict_growth_days (fsOf c1bundleA) 20 60 500 (13/2)) = some 20 ∧
    predictionOf (predict_growth_days (fsOf c1bundleB) 20 60 500 (13/2)) = some 20 :=
  ⟨rfl, rfl, rfl, rfl⟩

/-- C1 (amended): the pipeline frames the four reading values in the fixed
order [temperature, humidity, tds, ph] and attaches `features` only as
column labels; the predicted scalar is the regressor applied to the scaled
hard-coded row, the same for any two length-4 feature lists (in particular
for one obtained from the other by swapping two entries). -/
theorem c1_feature_order (m : List ℚ → ℚ) (s : List ℚ → List ℚ)
    (i₁ i₂ : ModelInfo) (t h d p : ℚ)
    (hl₁ : i₁.features.length = 4) (hl₂ : i₂.features.length = 4) :
    frame_input [t, h, d, p] i₁.features = .ok ⟨i₁.features, [t, h, d, p]⟩ ∧
    predictionOf (predict_growth_days (fsOf ⟨m, s, i₁⟩) t h d p) = some (m (s [t, h, d, p])) ∧
    predictionOf (predict_growth_days (fsOf ⟨m, s, i₂⟩) t h d p) = some (m (s [t, h, d, p])) := by
  unfold predict_growth_days load_model fsOf frame_input predictionOf
  simp [hl₁, hl₂]

/-- C1 (witness): `c1_feature_order` instantiated at the two concrete
feature lists of the counterexample bundles and the reading (20, 60, 500, 6.5). -/
theorem c1_witness :
    (["temperature", "humidity", "tds", "ph"] : List String).length = 4 ∧
    (["humidity", "temperature", "tds", "ph"] : List String).length = 4 ∧
    frame_input [20, 60, 500, 13/2] c1bundleA.info.features =
      .ok ⟨c1bundleA.info.features, [20, 60, 500, 13/2]⟩ := by
  refine ⟨by decide, by decide, ?_⟩
  exact (c1_feature_order c1bundleA.model c1bundleA.scaler c1bundleA.info c1bundleB.info
    20 60 500 (13/2) (by decide) (by decide)).1

/-- C2: `interpret` is total on ℚ and its four bands partition the line with
half-open lower boundaries; each category string characterises exactly its
band, `interpret 15 = "Fast growth - Good conditions"` and
`interpret 14.99 = "Very fast growth - Excellent conditions"`. -/
theorem c2_interpret_partition :
    (∀ d : ℚ,
      (interpret d = "Very fast growth - Excellent conditions" ↔ d < 15) ∧
      (interpret d = "Fast growth - Good conditions" ↔ 15 ≤ d ∧ d < 25) ∧
      (interpret d = "Moderate growth - Acceptable conditions" ↔ 25 ≤ d ∧ d < 35) ∧
      (interpret d = "Slow growth - Suboptimal conditions" ↔ 35 ≤ d)) ∧
    interpret 15 = "Fast growth - Good conditions" ∧
    interpret (1499/100) = "Very fast growth - Excellent conditions" := by
  refine ⟨interpret_cases, ?_, ?_⟩
  · exact (interpret_cases 15).2.1.mpr (by norm_num)
  · exact (interpret_cases (1499/100)).1.mpr (by norm_num)

/-- C3: validation accepts a reading iff every field lies within its
inclusive bound, and each out-of-range field is independently reported by
name in the failure. -/
theorem c3_validation (t h d p : ℚ) :
    ((∃ r, validateInput t h d p = .ok r) ↔
      (18 ≤ t ∧ t ≤ 35) ∧ (50 ≤ h ∧ h ≤ 80) ∧ (400 ≤ d ∧ d ≤ 800) ∧ (6 ≤ p ∧ p ≤ 7)) ∧
    (∀ errs, validateInput t h d p = .error errs →
      (("temperature" ∈ errs) ↔ (t < 18 ∨ t > 35)) ∧
      (("humidity" ∈ errs) ↔ (h < 50 ∨ h > 80)) ∧
      (("tds" ∈ errs) ↔ (d < 400 ∨ d > 800)) ∧
      (("ph" ∈ errs) ↔ (p < 6 ∨ p > 7))) := by
  unfold validateInput validate_temperature validate_humidity validate_tds validate_ph
  split_ifs with ht hh hd hp <;>
    simp_all [errField] <;>
    intros <;>
    casesm* _ ∨ _, _ ∧ _ <;>
    linarith

/-- C3 (witness): temperature 15.0 is rejected with a failure naming
`temperature`; pH 7.5 is rejected with a failure naming `ph`. -/
theorem c3_witness :
    validateInput 15 60 500 (13/2) = .error ["temperature"] ∧
    ("temperature" ∈ (["temperature"] : List String)) ∧
    validateInput 22 60 500 (15/2) = .error ["ph"] ∧
    ("ph" ∈ (["ph"] : List String)) := by
  have h1 : validateInput 15 60 500 (13/2) = .error ["temperature"] := by
    norm_num [validateInput, validate_temperature, validate_humidity, validate_tds,
      validate_ph, errField]
  have h2 : validateInput 22 60 500 (15/2) = .error ["ph"] := by
    norm_num [validateInput, validate_temperature, validate_humidity, validate_tds,
      validate_ph, errField]
  refine ⟨h1, ?_, h2, ?_⟩
  · exact ((c3_validation 15 60 500 (13/2)).2 _ h1).1.mpr (by norm_num)
  · exact ((c3_validation 22 60 500 (15/2)).2 _ h2).2.2.2.mpr (by norm_num)

/-- C4: a successful request carries the 2-decimal-rounded input forward:
validation returns the rounded reading, the endpoint body is fed exactly the
rounded values, and the echoed `input_conditions` equal the rounded input. -/
theorem c4_round_trip (t h d p : ℚ) (fs : FS) (out : PredictionOutput)
    (hc : handlePredict fs t h d p = .ok out) :
    validateInput t h d p = .ok ⟨pyRound 2 t, pyRound 2 h, pyRound 2 d, pyRound 2 p⟩ ∧
    predictEndpoint fs (pyRound 2 t) (pyRound 2 h) (pyRound 2 d) (pyRound 2 p) = .ok out ∧
    out.input_conditions = ⟨pyRound 2 t, pyRound 2 h, pyRound 2 d, pyRound 2 p⟩ := by
  unfold handlePredict at hc
  cases hv : validateInput t h d p with
  | error errs => rw [hv] at hc; simp at hc
  | ok r =>
    rw [hv] at hc
    have hr := validateInput_ok t h d p r hv
    subst hr
    refine ⟨rfl, hc, ?_⟩
    obtain ⟨q, res, hpred, hout⟩ := predictEndpoint_ok _ _ _ _ _ _ hc
    have hcond := (predict_ok_conditions _ _ _ _ _ _ _ hpred).1
    rw [hout]
    exact hcond

/-- C4 (witness): the raw input (22.556, 70, 600, 6.4) succeeds and the
echo is the rounded reading (22.56, 70, 600, 6.4). -/
theorem c4_witness :
    handlePredict (fsOf okBundle) (22556/1000) 70 600 (32/5) = .ok c4out ∧
    (validateInput (22556/1000) 70 600 (32/5) =
        .ok ⟨pyRound 2 (22556/1000), pyRound 2 70, pyRound 2 600, pyRound 2 (32/5)⟩ ∧
      predictEndpoint (fsOf okBundle) (pyRound 2 (22556/1000)) (pyRound 2 70)
        (pyRound 2 600) (pyRound 2 (32/5)) = .ok c4out ∧
      c4out.input_conditions =
        ⟨pyRound 2 (22556/1000), pyRound 2 70, pyRound 2 600, pyRound 2 (32/5)⟩) := by
  have hvt : pyRound 2 (22556/1000 : ℚ) = 2256/100 := by
    rw [pyRound_up 2 _ 2255 (by norm_num) (by norm_num) (by norm_num)]; norm_num
  have hv70 : pyRound 2 (70 : ℚ) = 70 := pyRound_int 2 _ 7000 (by norm_num)
  have hv600 : pyRound 2 (600 : ℚ) = 600 := pyRound_int 2 _ 60000 (by norm_num)
  have hvp : pyRound 2 (32/5 : ℚ) = 32/5 := pyRound_int 2 _ 640 (by norm_num)
  have h20 : pyRound 2 (20 : ℚ) = 20 := pyRound_int 2 _ 2000 (by norm_num)
  have hr2 : pyRound 4 (0.624 : ℚ) = 0.624 := pyRound_int 4 _ 6240 (by norm_num)
  have hint : interpretApi (20 : ℚ) = "Fast growth - Good conditions" := by
    unfold interpretApi
    rw [if_neg (by norm_num), if_pos (by norm_num)]
  have hv : validateInput (22556/1000) 70 600 (32/5) =
      .ok ⟨pyRound 2 (22556/1000), pyRound 2 70, pyRound 2 600, pyRound 2 (32/5)⟩ := by
    unfold validateInput validate_temperature validate_humidity validate_tds validate_ph
    rw [if_neg (by norm_num), if_neg (by norm_num), if_neg (by norm_num), if_neg (by norm_num)]
  have hp := predict_ok_iff okBundle (2256/100) 70 600 (32/5) rfl
  have hob : okBundle.model (okBundle.scaler [2256/100, 70, 600, 32/5]) = 20 := rfl
  rw [hob] at hp
  have hpe : predictEndpoint (fsOf okBundle) (2256/100) 70 600 (32/5) = .ok c4out := by
    unfold predictEndpoint
    rw [hp]
    dsimp only
    simp only [okBundle, c4out]
    rw [h20, hint, hr2]
  have hc : handlePredict (fsOf okBundle) (22556/1000) 70 600 (32/5) = .ok c4out := by
    unfold handlePredict
    rw [hv, hvt, hv70, hv600, hvp]
    dsimp only
    exact hpe
  exact ⟨hc, c4_round_trip _ _ _ _ _ _ hc⟩

lemma c5run :
    predictEndpoint (fsOf c5bundle) (45/2) 70 600 (32/5) = .ok c5run_out := by
  have h15 : pyRound 2 (14996/1000 : ℚ) = 15 := by
    rw [pyRound_up 2 _ 1499 (by norm_num) (by norm_num) (by norm_num)]; norm_num
  have hr2 : pyRound 4 (0.624 : ℚ) = 0.624 := pyRound_int 4 _ 6240 (by norm_num)
  have hint : interpretApi (14996/1000 : ℚ) = "Very fast growth - Excellent conditions" := by
    unfold interpretApi
    rw [if_pos (by norm_num)]
  have hp := predict_ok_iff c5bundle (45/2) 70 600 (32/5) rfl
  have hq : c5bundle.model (c5bundle.scaler [45/2, 70, 600, 32/5]) = 14996/1000 := rfl
  rw [hq] at hp
  unfold predictEndpoint
  rw [hp]
  dsimp only
  simp only [c5bundle, c5run_out]
  rw [h15, hint, hr2]

/-- C5 (counterexample): for the bundle whose regressor reports 14.996 days
and the valid reading (22.5, 70, 600, 6.4), the returned
`predicted_growth_days` is 15, which lies in the "Fast growth" band, but the
result's `interpretation` field is "Very fast growth" (computed from the
unrounded 14.996): the interpretation is NOT the band of the returned
prediction. -/
theorem c5_counterexample :
    c5bundle.info.model_name = "Random Forest" ∧
    c5bundle.info.test_r2 = 0.624 ∧
    predictEndpoint (fsOf c5bundle) (45/2) 70 600 (32/5) = .ok c5run_out ∧
    c5run_out.predicted_growth_days = 15 ∧
    interpret (15 : ℚ) = "Fast growth - Good conditions" ∧
    c5run_out.interp = "Very fast growth - Excellent conditions" ∧
    ("Very fast growth - Excellent conditions" : String) ≠ "Fast growth - Good conditions" := by
  refine ⟨rfl, rfl, c5run, rfl, ?_, rfl, by decide⟩
  exact (interpret_cases 15).2.1.mpr (by norm_num)

/-- C5 (amended): every successful request against a bundle with
`model_name = "Random Forest"` and `test_r2 = 0.624` yields
`model_used = "Random Forest"`, `model_accuracy_r2 = 0.624`, and an
interpretation equal to the band of the raw (unrounded) computed prediction,
the returned `predicted_growth_days` being that prediction rounded to
2 decimals. -/
theorem c5_scenario (b : Bundle) (hn : b.info.model_name = "Random Forest")
    (hr : b.info.test_r2 = 0.624) (t h d p : ℚ) (out : PredictionOutput)
    (ho : predictEndpoint (fsOf b) t h d p = .ok out) :
    out.model_used = "Random Forest" ∧
    out.model_accuracy_r2 = 0.624 ∧
    ∃ q res, predict_growth_days (fsOf b) t h d p = .ok q res ∧
      out.interp = interpretApi q ∧
      out.predicted_growth_days = pyRound 2 q := by
  obtain ⟨q, res, hpred, hout⟩ := predictEndpoint_ok _ _ _ _ _ _ ho
  obtain ⟨hq, hres⟩ := predict_ok_fsOf _ _ _ _ _ _ _ hpred
  have hr2 : pyRound 4 (0.624 : ℚ) = 0.624 := pyRound_int 4 _ 6240 (by norm_num)
  subst hout
  subst hres
  refine ⟨hn, ?_, q, _, hpred, rfl, rfl⟩
  dsimp only
  rw [hr, hr2]

/-- C5 (witness): `c5_scenario` instantiated at `c5bundle` and the scenario
reading (22.5, 70, 600, 6.4). -/
theorem c5_witness :
    c5bundle.info.model_name = "Random Forest" ∧
    c5bundle.info.test_r2 = 0.624 ∧
    (c5run_out.model_used = "Random Forest" ∧
     c5run_out.model_accuracy_r2 = 0.624 ∧
     ∃ q res, predict_growth_days (fsOf c5bundle) (45/2) 70 600 (32/5) = .ok q res ∧
       c5run_out.interp = interpretApi q ∧
       c5run_out.predicted_growth_days = pyRound 2 q) :=
  ⟨rfl, rfl, c5_scenario c5bundle rfl rfl (45/2) 70 600 (32/5) c5run_out c5run⟩

/-- C6: given a fixed world (artifact files plus stdout) and a valid
reading, two successive calls of the prediction function return the same
outcome, and the call leaves the filesystem unchanged (its only effects are
file reads and possibly a printed line). -/
theorem c6_deterministic (w : World) (t h d p : ℚ)
    (ht : 18 ≤ t ∧ t ≤ 35) (hh : 50 ≤ h ∧ h ≤ 80)
    (hd : 400 ≤ d ∧ d ≤ 800) (hp : 6 ≤ p ∧ p ≤ 7) :
    (predictW w t h d p).1 = (predictW ((predictW w t h d p).2) t h d p).1 ∧
    ((predictW w t h d p).2).fs = w.fs :=
  ⟨rfl, rfl⟩

/-- C6 (witness): `c6_deterministic` at the world holding `okBundle`'s
artifacts and the valid reading (22.5, 70, 600, 6.4). -/
theorem c6_witness :
    ((18 : ℚ) ≤ 45/2 ∧ (45/2 : ℚ) ≤ 35) ∧
    ((predictW ⟨fsOf okBundle, []⟩ (45/2) 70 600 (32/5)).1 =
      (predictW ((predictW ⟨fsOf okBundle, []⟩ (45/2) 70 600 (32/5)).2) (45/2) 70 600 (32/5)).1 ∧
     ((predictW ⟨fsOf okBundle, []⟩ (45/2) 70 600 (32/5)).2).fs = (⟨fsOf okBundle, []⟩ : World).fs) :=
  ⟨by norm_num,
    c6_deterministic ⟨fsOf okBundle, []⟩ (45/2) 70 600 (32/5)
      (by norm_num) (by norm_num) (by norm_num) (by norm_num)⟩

/-- C7 (counterexample): with both `best_model.pkl` and `scaler.pkl` absent,
`load_model` fails naming only `best_model.pkl`, not exactly the set of
missing resources (which also contains `scaler.pkl`). -/
theorem c7_counterexample :
    load_model c7fs = .error "best_model.pkl" ∧
    missingFiles c7fs = ["best_model.pkl", "scaler.pkl"] ∧
    "scaler.pkl" ∈ missingFiles c7fs ∧
    ("best_model.pkl" : String) ≠ "scaler.pkl" :=
  ⟨rfl, rfl, by decide, by decide⟩

/-- C7 (amended): `load_model` fails exactly when some artifact is missing;
the failure names the FIRST missing resource in the order `best_model.pkl`,
`scaler.pkl`, `model_info.json` (hence exactly the missing one when a single
resource is missing), and after a load failure the prediction function
returns the `(None, None)` result without attempting inference. -/
theorem c7_first_missing (fs : FS) :
    ((∃ e, load_model fs = .error e) ↔ missingFiles fs ≠ []) ∧
    (∀ e, load_model fs = .error e →
      (missingFiles fs).head? = some e ∧ e ∈ missingFiles fs) ∧
    (∀ e t h d p, load_model fs = .error e →
      predict_growth_days fs t h d p = .noneResult e) := by
  obtain ⟨m, s, i⟩ := fs
  cases m <;> cases s <;> cases i <;>
    simp_all [load_model, missingFiles, predict_growth_days]

/-- C7 (witness): `c7_first_missing` at a directory missing only
`model_info.json`: the failure names it, it is exactly the missing resource,
and prediction aborts with the `None` result. -/
theorem c7_witness :
    load_model c7fs2 = .error "model_info.json" ∧
    (missingFiles c7fs2).head? = some "model_info.json" ∧
    "model_info.json" ∈ missingFiles c7fs2 ∧
    predict_growth_days c7fs2 20 60 500 (13/2) = .noneResult "model_info.json" :=
  ⟨rfl, ((c7_first_missing c7fs2).2.1 _ rfl).1, ((c7_first_missing c7fs2).2.1 _ rfl).2,
    (c7_first_missing c7fs2).2.2 _ 20 60 500 (13/2) rfl⟩

/-- C8 (counterexample): a bundle whose metadata lists the four unmappable
feature names "a", "b", "c", "d" does NOT make `predict_growth_days` fail:
the prediction succeeds (no name-to-field mapping exists in the code). -/
theorem c8_counterexample :
    c8bundle.info.features = ["a", "b", "c", "d"] ∧
    predict_growth_days (fsOf c8bundle) (45/2) 70 600 (32/5) =
      .ok (c8bundle.model (c8bundle.scaler [45/2, 70, 600, 32/5]))
        ⟨⟨45/2, 70, 600, 32/5⟩,
          pyRound 2 (c8bundle.model (c8bundle.scaler [45/2, 70, 600, 32/5])),
          c8bundle.info.model_name, pyRound 4 c8bundle.info.test_r2⟩ ∧
    predictionOf (predict_growth_days (fsOf c8bundle) (45/2) 70 600 (32/5)) = some 20 :=
  ⟨rfl, predict_ok_iff c8bundle (45/2) 70 600 (32/5) rfl, rfl⟩

/-- C8 (amended): when the metadata feature list has length ≠ 4 the
prediction fails with the pandas `ValueError` (an unclassified exception,
not a structured `FeatureShapeMismatch`); when it has length 4 the
prediction succeeds regardless of whether the names map to reading fields. -/
theorem c8_shape (b : Bundle) (t h d p : ℚ) :
    (b.info.features.length ≠ 4 →
      predict_growth_days (fsOf b) t h d p =
        .raised (.valueError "Shape of passed values does not match implied indices")) ∧
    (b.info.features.length = 4 →
      predict_growth_days (fsOf b) t h d p =
        .ok (b.model (b.scaler [t, h, d, p]))
          ⟨⟨t, h, d, p⟩, pyRound 2 (b.model (b.scaler [t, h, d, p])),
            b.info.model_name, pyRound 4 b.info.test_r2⟩) := by
  constructor
  · intro hlen
    unfold predict_growth_days load_model fsOf frame_input
    dsimp only
    rw [if_neg (by simpa using hlen)]
  · intro hlen
    exact predict_ok_iff b t h d p hlen

/-- C8 (witness): `c8_shape` at a 3-feature bundle (pandas ValueError) and
at the 4-feature unmappable-names bundle (success). -/
theorem c8_witness :
    predict_growth_days (fsOf c8bundle3) (45/2) 70 600 (32/5) =
      .raised (.valueError "Shape of passed values does not match implied indices") ∧
    predict_growth_days (fsOf c8bundle) (45/2) 70 600 (32/5) =
      .ok (c8bundle.model (c8bundle.scaler [45/2, 70, 600, 32/5]))
        ⟨⟨45/2, 70, 600, 32/5⟩,
          pyRound 2 (c8bundle.model (c8bundle.scaler [45/2, 70, 600, 32/5])),
          c8bundle.info.model_name, pyRound 4 c8bundle.info.test_r2⟩ :=
  ⟨(c8_shape c8bundle3 (45/2) 70 600 (32/5)).1 (by decide),
    (c8_shape c8bundle (45/2) 70 600 (32/5)).2 rfl⟩

/-- C9: for every bundle with a length-4 feature list and EVERY reading
(no validation is applied at this stage), the endpoint assembles the
response by rounding the prediction to 2 decimals, copying `model_name` and
`test_r2` rounded to 4 decimals from the metadata, echoing the reading and
embedding the category of the prediction. -/
theorem c9_assembly (b : Bundle) (t h d p : ℚ) (hl : b.info.features.length = 4) :
    predictEndpoint (fsOf b) t h d p =
      .ok ⟨pyRound 2 (b.model (b.scaler [t, h, d, p])), ⟨t, h, d, p⟩,
           b.info.model_name, pyRound 4 b.info.test_r2,
           interpretApi (b.model (b.scaler [t, h, d, p]))⟩ := by
  unfold predictEndpoint
  rw [predict_ok_iff b t h d p hl]

/-- C9 (witness): `c9_assembly` at `okBundle` and the out-of-range reading
(100, 0, 0, 0) — assembly applies no validation. -/
theorem c9_witness :
    (100 : ℚ) > 35 ∧
    predictEndpoint (fsOf okBundle) 100 0 0 0 =
      .ok ⟨pyRound 2 (okBundle.model (okBundle.scaler [100, 0, 0, 0])), ⟨100, 0, 0, 0⟩,
           okBundle.info.model_name, pyRound 4 okBundle.info.test_r2,
           interpretApi (okBundle.model (okBundle.scaler [100, 0, 0, 0]))⟩ :=
  ⟨by norm_num, c9_assembly okBundle 100 0 0 0 rfl⟩

/-- C10: the two source copies of the interpretation helper — in
`predict.py` and in `main.py` — are extensionally equal. -/
theorem c10_interpret_copies : ∀ d : ℚ, interpret d = interpretApi d :=
  fun _ => rfl
